import Mathlib

/-!
Verification of the source-name resolver of the buidler repository
(packages/buidler-core/src/internal/solidity/resolver.ts).

The development shallowly embeds the resolver and the path primitives it
relies on:
* Node `path.posix.normalize`, `path.posix.join`, `path.posix.dirname`,
  `path.isAbsolute`;
* the npm `slash` package (backslash to forward-slash conversion);
* JavaScript `String.indexOf`, `String.slice`, `String.substr`,
  `String.includes`, and the scheme regex of `_getUriScheme`.

The filesystem, the package-resolution mechanism (`require.resolve`), the
true-case lookup (`true-case-path`) and the Parser collaborator are
abstracted as total functions packaged in an `FS` record, since the
resolver only observes their results.
-/

set_option maxRecDepth 4096

namespace Buidler

/-! ## String and path primitives -/

/-- Splits a character list at every forward slash, keeping empty pieces,
mirroring how path segments are delimited. -/
def splitSlash : List Char → List (List Char)
  | [] => [[]]
  | c :: cs =>
    if c = '/' then [] :: splitSlash cs
    else
      match splitSlash cs with
      | [] => [[c]]
      | h :: t => (c :: h) :: t

/-- The segments of a string, split at forward slashes. -/
def segmentsOf (s : String) : List String :=
  (splitSlash s.data).map String.mk

/-- `pre` is a leading piece of `s` (JavaScript `startsWith`). -/
def startsWithS (s pre : String) : Bool :=
  pre.data.isPrefixOf s.data

/-- `suf` is a trailing piece of `s` (JavaScript `endsWith`). -/
def endsWithS (s suf : String) : Bool :=
  suf.data.isSuffixOf s.data

/-- The `slash` npm package: converts backslashes to forward slashes. -/
def slashStr (s : String) : String :=
  String.mk (s.data.map (fun c => if c = '\\' then '/' else c))

/-- One step of Node `normalizeString`: processes one path segment against
the stack of already-kept segments (stored in reverse). An empty or `.`
segment is dropped; `..` pops the last kept segment, except that above the
start of a relative path (`allowUp = true`) it accumulates. -/
def normStep (allowUp : Bool) (acc : List String) (seg : String) : List String :=
  if seg = "" ∨ seg = "." then acc
  else if seg = ".." then
    match acc with
    | [] => if allowUp then [".."] else []
    | top :: rest => if top = ".." then (if allowUp then ".." :: acc else acc) else rest
  else seg :: acc

/-- Node `normalizeString`: resolves `.` and `..` segments of a split path. -/
def normSegs (allowUp : Bool) (segs : List String) : List String :=
  (segs.foldl (normStep allowUp) []).reverse

/-- Node `path.posix.normalize`. -/
def posixNormalize (p : String) : String :=
  if p = "" then "."
  else
    let isAbs := startsWithS p "/"
    let trail := endsWithS p "/"
    let core := String.intercalate "/" (normSegs (!isAbs) (segmentsOf p))
    let core2 := if core = "" ∧ isAbs = false then "." else core
    let core3 := if core2 ≠ "" ∧ trail = true then core2 ++ "/" else core2
    if isAbs then "/" ++ core3 else core3

/-- Node `path.posix.join` over a list of parts: empty parts are dropped,
the rest are joined with `/` and normalized; with nothing left the result
is `.`. -/
def pathJoinList (parts : List String) : String :=
  let kept := parts.filter (fun q => q != "")
  if kept.isEmpty then "." else posixNormalize (String.intercalate "/" kept)

/-- Node `path.posix.join` with two arguments. -/
def pathJoin (a b : String) : String :=
  pathJoinList [a, b]

/-- Node `path.posix.dirname`. -/
def posixDirname (p : String) : String :=
  match p.data with
  | [] => "."
  | c0 :: rest =>
    let hasRoot := c0 = '/'
    let r2 := (((c0 :: rest).reverse.dropWhile (fun a => a == '/')).dropWhile (fun a => a != '/'))
    if 2 ≤ r2.length then
      if hasRoot ∧ r2.length = 2 then "//"
      else String.mk ((c0 :: rest).take (r2.length - 1))
    else if hasRoot then "/" else "."

/-- Node `path.posix.isAbsolute`. -/
def isAbsolutePath (p : String) : Bool :=
  startsWithS p "/"

/-- JavaScript `String.indexOf` for a single character, searching from
position `start`; `-1` when absent. -/
def charIndexFrom (cs : List Char) (c : Char) (start : Nat) : Int :=
  if ((cs.drop start).takeWhile (fun a => a != c)).length < (cs.drop start).length then
    Int.ofNat (start + ((cs.drop start).takeWhile (fun a => a != c)).length)
  else -1

/-- JavaScript `String.indexOf` for a pattern, with the running index as an
accumulator; `-1` when absent. -/
def strIndexOfAux : List Char → List Char → Nat → Int
  | [], pat, i => if pat = [] then Int.ofNat i else -1
  | c :: rest, pat, i =>
    if pat.isPrefixOf (c :: rest) then Int.ofNat i else strIndexOfAux rest pat (i + 1)

/-- JavaScript `String.indexOf` for a pattern. -/
def strIndexOf (cs pat : List Char) : Int :=
  strIndexOfAux cs pat 0

/-- JavaScript `String.includes`. -/
def containsSub (s pat : String) : Bool :=
  decide (strIndexOf s.data pat.data ≠ -1)

/-- JavaScript `String.slice(0, e)`: a negative `e` counts from the end of
the string. -/
def jsSliceTo (cs : List Char) (e : Int) : List Char :=
  cs.take (if e < 0 then max (Int.ofNat cs.length + e) 0
           else min e (Int.ofNat cs.length)).toNat

/-- The regex `([a-zA-Z]+):\/\/` of `_getUriScheme`, applied by scanning
positions left to right: at the first ASCII-letter run that is immediately
followed by `://`, the run is captured. -/
def getUriSchemeAux : List Char → Option String
  | [] => none
  | c :: rest =>
    if c.isAlpha then
      if (List.dropWhile Char.isAlpha (c :: rest)).take 3 = [':', '/', '/'] then
        some (String.mk (List.takeWhile Char.isAlpha (c :: rest)))
      else getUriSchemeAux rest
    else getUriSchemeAux rest

/-! ## Data model (resolver.ts lines 10-60) -/

/-- `LibraryInfo` of resolver.ts. -/
structure LibraryInfo where
  name : String
  version : String
  deriving DecidableEq, Repr

/-- `FileContent` of resolver.ts; the `imports` and `versionPragmas` lists
are opaque Parser output. -/
structure FileContent where
  rawContent : String
  imports : List String
  versionPragmas : List String
  deriving DecidableEq, Repr

/-- `ResolvedFile` of resolver.ts. The constructor sets `library` exactly
when both a library name and a library version are passed. -/
structure ResolvedFile where
  globalName : String
  absolutePath : String
  content : FileContent
  lastModificationDate : Nat
  library : Option LibraryInfo
  deriving DecidableEq, Repr

/-- `ResolvedFile.getVersionedName` of resolver.ts. -/
def ResolvedFile.getVersionedName (f : ResolvedFile) : String :=
  f.globalName ++
    (match f.library with
     | some li => "@v" ++ li.version
     | none => "")

/-- The `NODE_MODULES` constant of resolver.ts. -/
def NODE_MODULES : String := "node_modules"

/-- The reserved third-party-package segment with its trailing slash, the
pattern searched by `_relativeImportToSourceName`. -/
def nodeModulesSeg : String := NODE_MODULES ++ "/"

/-! ## Errors (core/errors-list.ts, RESOLVER section) -/

/-- The RESOLVER error descriptors, each carrying the fields the source
attaches to it. -/
inductive ResolverError where
  | invalidSourceNameAbsolutePath (name : String)
  | invalidSourceNameRelativePath (name : String)
  | invalidSourceNameBackslashes (name : String)
  | invalidSourceNotNormalized (name : String)
  | fileNotFound (file : String)
  | libraryFileNotFound (file : String)
  | wrongCasing (incorrect correct : String)
  | libraryNotInstalled (library : String)
  | invalidImportBackslash (fromName imported : String)
  | invalidImportProtocol (fromName imported protocol : String)
  | invalidImportAbsolutePath (fromName imported : String)
  | invalidImportOutsideOfProject (fromName imported : String)
  | illegalImport (fromName imported : String)
  | importedFileNotFound (imported fromName : String)
  | invalidImportWrongCasing (imported fromName : String)
  deriving DecidableEq, Repr

/-! ## Filesystem abstraction and the Resolver record -/

/-- The filesystem-facing capabilities the resolver consumes, abstracted as
total functions:
* `pathExists` — `fsExtra.pathExists` at an absolute path (tolerant of
  casing on case-insensitive hosts);
* `trueCase fromDir name` — the `true-case-path` lookup composed with
  `slash(path.relative(fromDir, ...))` as performed by
  `_validateSourceNameExistenceAndCasing`: the true-cased source name, or
  `none` when no file matches even case-insensitively;
* `requireResolve f` — `require.resolve(f, { paths: [projectRoot] })`, or
  `none` when the module cannot be found;
* `readFile` and `ctimeOf` — file content and status-change time;
* `packageVersion p` — the `version` field of the JSON at `p`. -/
structure FS where
  pathExists : String → Bool
  trueCase : String → String → Option String
  requireResolve : String → Option String
  readFile : String → String
  ctimeOf : String → Nat
  packageVersion : String → String

/-- The `Resolver` class: a project root, a Parser (abstracted as a total
function from raw content and absolute path to imports and pragmas), a
filesystem, and the directory of the resolver module itself (`__dirname`,
used only by the first-party fallback). -/
structure Resolver where
  projectRoot : String
  parse : String → String → List String × List String
  fs : FS
  resolverDirname : String

/-! ## Resolver operations (resolver.ts lines 73-394) -/

/-- `_normalizePath`: `slash(path.normalize(p))`. -/
def normalizePath (p : String) : String :=
  slashStr (posixNormalize p)

/-- `_isRelativeImport`. -/
def isRelativeImport (imported : String) : Bool :=
  startsWithS imported "./" || startsWithS imported "../"

/-- `_getUriScheme`. -/
def getUriScheme (s : String) : Option String :=
  getUriSchemeAux s.data

/-- `_getLibraryName`: `slice(0, indexOf("/"))`, except that a scoped name
(starting with `@`) slices up to the second slash. -/
def getLibraryName (sourceName : String) : String :=
  if startsWithS sourceName "@" then
    String.mk (jsSliceTo sourceName.data
      (charIndexFrom sourceName.data '/' ((charIndexFrom sourceName.data '/' 0) + 1).toNat))
  else
    String.mk (jsSliceTo sourceName.data (charIndexFrom sourceName.data '/' 0))

/-- `_isSourceNameFromLocalSourceFile`: a name including the reserved
substring is never local; otherwise locality is existence of
`projectRoot/sourceName`. -/
def isSourceNameFromLocalSourceFile (R : Resolver) (sourceName : String) : Bool :=
  if containsSub sourceName NODE_MODULES then false
  else R.fs.pathExists (pathJoin R.projectRoot sourceName)

/-- `_validateSourceNameExistenceAndCasing`. -/
def validateSourceNameExistenceAndCasing (R : Resolver) (sourceName fromDir : String)
    (isLibrary : Bool) : Except ResolverError Unit :=
  match R.fs.trueCase fromDir sourceName with
  | none =>
    .error (if isLibrary then .libraryFileNotFound sourceName else .fileNotFound sourceName)
  | some trueName =>
    if trueName ≠ sourceName then .error (.wrongCasing sourceName trueName) else .ok ()

/-- `_resolveFile`: reads the file, stats it, runs the Parser and assembles
the `ResolvedFile`; `library` is set exactly when both optional arguments
are passed, as in the `ResolvedFile` constructor. -/
def resolveFile (R : Resolver) (sourceName absolutePath : String)
    (libraryName libraryVersion : Option String) : ResolvedFile :=
  let rawContent := R.fs.readFile absolutePath
  let parsed := R.parse rawContent absolutePath
  { globalName := sourceName
    absolutePath := absolutePath
    content := ⟨rawContent, parsed.1, parsed.2⟩
    lastModificationDate := R.fs.ctimeOf absolutePath
    library :=
      match libraryName, libraryVersion with
      | some n, some v => some ⟨n, v⟩
      | _, _ => none }

/-- `_resolveLocalSourceName`. -/
def resolveLocalSourceName (R : Resolver) (sourceName : String) :
    Except ResolverError ResolvedFile :=
  match validateSourceNameExistenceAndCasing R sourceName R.projectRoot false with
  | .error e => .error e
  | .ok _ => .ok (resolveFile R sourceName (pathJoin R.projectRoot sourceName) none none)

/-- The package-metadata location step of `_resolveLibrarySourceName`: the
`require.resolve` call with its catch, including the hard-coded first-party
fallback for `@nomiclabs/buidler` resolved relative to the resolver
module. -/
def getPackagePath (R : Resolver) (libraryName : String) : Except ResolverError String :=
  match R.fs.requireResolve (pathJoin libraryName "package.json") with
  | some p => .ok p
  | none =>
    if libraryName = "@nomiclabs/buidler" then
      .ok (pathJoin (pathJoinList [R.resolverDirname, "..", ".."]) "package.json")
    else .error (.libraryNotInstalled libraryName)

/-- `_resolveLibrarySourceName`. -/
def resolveLibrarySourceName (R : Resolver) (sourceName : String) :
    Except ResolverError ResolvedFile :=
  match getPackagePath R (getLibraryName sourceName) with
  | .error e => .error e
  | .ok packagePath =>
    match validateSourceNameExistenceAndCasing R sourceName
        (posixDirname (posixDirname packagePath)) true with
    | .error e => .error e
    | .ok _ =>
      .ok (resolveFile R sourceName
        (pathJoin (posixDirname (posixDirname packagePath)) sourceName)
        (some (getLibraryName sourceName)) (some (R.fs.packageVersion packagePath)))

/-- `resolveSourceName`: the four syntactic checks in source order, then
classification and delegation. -/
def resolveSourceName (R : Resolver) (sourceName : String) :
    Except ResolverError ResolvedFile :=
  if isAbsolutePath sourceName then .error (.invalidSourceNameAbsolutePath sourceName)
  else if startsWithS sourceName "." then .error (.invalidSourceNameRelativePath sourceName)
  else if slashStr sourceName ≠ sourceName then .error (.invalidSourceNameBackslashes sourceName)
  else if normalizePath sourceName ≠ sourceName then .error (.invalidSourceNotNormalized sourceName)
  else if isSourceNameFromLocalSourceFile R sourceName then resolveLocalSourceName R sourceName
  else resolveLibrarySourceName R sourceName

/-- `_relativeImportToSourceName`: joins the importer directory with the
raw string, normalizes, strips through the first `node_modules/` occurrence
when the importer is local, and otherwise rejects upward escapes. -/
def relativeImportToSourceName (frm : ResolvedFile) (imported : String) :
    Except ResolverError String :=
  let sourceName := normalizePath (pathJoin (posixDirname frm.globalName) imported)
  let nmIndex := strIndexOf sourceName.data nodeModulesSeg.data
  if frm.library = none ∧ nmIndex ≠ -1 then
    .ok (String.mk (sourceName.data.drop (nmIndex.toNat + NODE_MODULES.length + 1)))
  else if startsWithS sourceName "../" then
    if frm.library = none then .error (.invalidImportOutsideOfProject frm.globalName imported)
    else .error (.illegalImport frm.globalName imported)
  else .ok sourceName

/-- The body of the `try` block of `resolveImport`: translation of the raw
string to a source name followed by `resolveSourceName`. -/
def tryResolveImportedSource (R : Resolver) (frm : ResolvedFile) (imported : String) :
    Except ResolverError ResolvedFile :=
  if !(isRelativeImport imported) then resolveSourceName R (normalizePath imported)
  else
    match relativeImportToSourceName frm imported with
    | .ok sourceName => resolveSourceName R sourceName
    | .error e => .error e

/-- `resolveImport`: scheme, backslash and absolute-path rejection, then
the try block, with `FILE_NOT_FOUND`, `LIBRARY_FILE_NOT_FOUND` and
`WRONG_CASING` failures rewrapped and every other failure rethrown. -/
def resolveImport (R : Resolver) (frm : ResolvedFile) (imported : String) :
    Except ResolverError ResolvedFile :=
  match getUriScheme imported with
  | some scheme => .error (.invalidImportProtocol frm.globalName imported scheme)
  | none =>
    if slashStr imported ≠ imported then .error (.invalidImportBackslash frm.globalName imported)
    else if isAbsolutePath imported then
      .error (.invalidImportAbsolutePath frm.globalName imported)
    else
      match tryResolveImportedSource R frm imported with
      | .ok f => .ok f
      | .error e =>
        match e with
        | .fileNotFound _ => .error (.importedFileNotFound imported frm.globalName)
        | .libraryFileNotFound _ => .error (.importedFileNotFound imported frm.globalName)
        | .wrongCasing _ _ => .error (.invalidImportWrongCasing imported frm.globalName)
        | e2 => .error e2

/-! ## Spec-side definitions

These follow the words of the specification, for comparison with the
definitions embedded from the source. -/

/-- Modelled from the spec: a source name contains the reserved
third-party-package directory segment, read as a path segment. -/
def hasNodeModulesSegment (s : String) : Bool :=
  (segmentsOf s).contains NODE_MODULES

/-- The suffix of a string after the first occurrence of the reserved
`node_modules/` pattern, the value the strip of
`_relativeImportToSourceName` produces. -/
def afterNodeModules (s : String) : String :=
  String.mk (s.data.drop ((strIndexOf s.data nodeModulesSeg.data).toNat + NODE_MODULES.length + 1))

/-- The error shapes that the catch block of `resolveImport` rewraps. -/
def isRewrappedError : ResolverError → Bool
  | .fileNotFound _ => true
  | .libraryFileNotFound _ => true
  | .wrongCasing _ _ => true
  | _ => false

/-! ## Concrete instances used by witnesses and counterexamples -/

/-- Empty file content for concrete importer records. -/
def emptyContent : FileContent := ⟨"", [], []⟩

/-- A concrete locally resolved importer. -/
def localFile (name : String) : ResolvedFile :=
  ⟨name, "/prj/" ++ name, emptyContent, 0, none⟩

/-- A concrete importer resolved from a library. -/
def libraryFile (name : String) (li : LibraryInfo) : ResolvedFile :=
  ⟨name, "/prj/node_modules/" ++ name, emptyContent, 0, some li⟩

/-- A filesystem on which nothing exists. -/
def fsEmpty : FS :=
  ⟨fun _ => false, fun _ _ => none, fun _ => none, fun _ => "", fun _ => 0, fun _ => ""⟩

/-- A resolver over a given filesystem, rooted at `/prj`, with a Parser
returning empty lists. -/
def mkResolver (fs : FS) : Resolver :=
  ⟨"/prj", fun _ _ => ([], []), fs, "/prj/node_modules/@nomiclabs/buidler/internal/solidity"⟩

/-- A resolver over the empty filesystem. -/
def emptyResolver : Resolver := mkResolver fsEmpty

/-- A filesystem holding the local file `a/b.ext` and the installed package
`lib` at version `1.2.3` containing `x/y.ext`. -/
def fsLib : FS :=
  { pathExists := fun p => p == "/prj/a/b.ext"
    trueCase := fun d n =>
      if d == "/prj" && n == "a/b.ext" then some "a/b.ext"
      else if d == "/prj/node_modules" && n == "lib/x/y.ext" then some "lib/x/y.ext"
      else none
    requireResolve := fun f =>
      if f == "lib/package.json" then some "/prj/node_modules/lib/package.json" else none
    readFile := fun _ => ""
    ctimeOf := fun _ => 0
    packageVersion := fun p =>
      if p == "/prj/node_modules/lib/package.json" then "1.2.3" else "" }

/-- The resolver over `fsLib`. -/
def libResolver : Resolver := mkResolver fsLib

/-- A filesystem holding `/prj/src/my_node_modules_backup/f.sol` with
matching casing. -/
def fsBackup : FS :=
  { fsEmpty with
    pathExists := fun p => p == "/prj/src/my_node_modules_backup/f.sol"
    trueCase := fun d n =>
      if d == "/prj" && n == "src/my_node_modules_backup/f.sol" then
        some "src/my_node_modules_backup/f.sol"
      else none }

/-- The resolver over `fsBackup`. -/
def backupResolver : Resolver := mkResolver fsBackup

/-- A filesystem holding `/prj/dir/node_modulesx/f.sol`. -/
def fsNmx : FS :=
  { fsEmpty with pathExists := fun p => p == "/prj/dir/node_modulesx/f.sol" }

/-- The resolver over `fsNmx`. -/
def nmxResolver : Resolver := mkResolver fsNmx

/-- A case-insensitive filesystem holding `/prj/B.sol`: the
case-insensitive existence check accepts `b.sol`, the true-case lookup
reports `B.sol`. -/
def fsCasing : FS :=
  { fsEmpty with
    pathExists := fun p => p == "/prj/b.sol" || p == "/prj/B.sol"
    trueCase := fun d n =>
      if d == "/prj" && (n == "b.sol" || n == "B.sol") then some "B.sol" else none }

/-- The resolver over `fsCasing`. -/
def casingResolver : Resolver := mkResolver fsCasing

/-! ## Shared helper lemmas -/

/-- The strip of the relative-import translator: a local importer whose
joined, normalized path holds the reserved pattern gets the suffix after
its first occurrence. -/
lemma relativeImport_strip_aux (frm : ResolvedFile) (imported : String)
    (hlib : frm.library = none)
    (hnm : containsSub (normalizePath (pathJoin (posixDirname frm.globalName) imported))
      nodeModulesSeg = true) :
    relativeImportToSourceName frm imported =
      .ok (afterNodeModules (normalizePath (pathJoin (posixDirname frm.globalName) imported))) := by
  have h2 : strIndexOf (normalizePath (pathJoin (posixDirname frm.globalName) imported)).data
      nodeModulesSeg.data ≠ -1 := of_decide_eq_true hnm
  simp [relativeImportToSourceName, afterNodeModules, hlib, h2]

/-- A file returned by `_resolveLocalSourceName` carries no library
provenance. -/
lemma resolveLocalSourceName_ok_library (R : Resolver) (s : String) (f : ResolvedFile)
    (h : resolveLocalSourceName R s = .ok f) : f.library = none := by
  unfold resolveLocalSourceName at h
  cases hv : validateSourceNameExistenceAndCasing R s R.projectRoot false with
  | error e => simp [hv] at h
  | ok u =>
    simp only [hv] at h
    rw [Except.ok.injEq] at h
    subst h
    rfl

/-- A file returned by `_resolveLibrarySourceName` carries library
provenance. -/
lemma resolveLibrarySourceName_ok_library (R : Resolver) (s : String) (f : ResolvedFile)
    (h : resolveLibrarySourceName R s = .ok f) : f.library.isSome = true := by
  unfold resolveLibrarySourceName at h
  cases hp : getPackagePath R (getLibraryName s) with
  | error e => simp [hp] at h
  | ok packagePath =>
    simp only [hp] at h
    cases hv : validateSourceNameExistenceAndCasing R s
        (posixDirname (posixDirname packagePath)) true with
    | error e => simp [hv] at h
    | ok u =>
      simp only [hv] at h
      rw [Except.ok.injEq] at h
      subst h
      rfl

/-- A successful `resolveSourceName` yields library provenance exactly when
the local classifier rejected the name. -/
lemma resolveSourceName_ok_library (R : Resolver) (s : String) (f : ResolvedFile)
    (h : resolveSourceName R s = .ok f) :
    f.library.isSome = !isSourceNameFromLocalSourceFile R s := by
  unfold resolveSourceName at h
  by_cases h1 : isAbsolutePath s = true
  case pos => simp [h1] at h
  by_cases h2 : startsWithS s "." = true
  case pos => simp [h1, h2] at h
  by_cases h3 : slashStr s = s
  case neg => simp [h1, h2, h3] at h
  by_cases h4 : normalizePath s = s
  case neg => simp [h1, h2, h3, h4] at h
  rw [if_neg h1, if_neg h2, if_neg (not_not_intro h3), if_neg (not_not_intro h4)] at h
  cases hc : isSourceNameFromLocalSourceFile R s
  · rw [hc] at h
    simp only [Bool.false_eq_true, if_false] at h
    rw [resolveLibrarySourceName_ok_library R s f h]
    rfl
  · rw [hc] at h
    simp only [if_true] at h
    rw [resolveLocalSourceName_ok_library R s f h]
    rfl

/-! ## Claims -/

/-- C5: resolveSourceName runs four syntactic checks in a fixed order,
absolute path first, then a leading dot, then backslashes, then
non-normalized form, each with its own error kind; the conclusion holds for
every resolver, so no filesystem access is involved, and a name failing an
earlier check gets the error of that check. -/
theorem resolveSourceName_check_order (R : Resolver) (s : String) :
    (isAbsolutePath s = true →
      resolveSourceName R s = .error (.invalidSourceNameAbsolutePath s)) ∧
    (isAbsolutePath s = false → startsWithS s "." = true →
      resolveSourceName R s = .error (.invalidSourceNameRelativePath s)) ∧
    (isAbsolutePath s = false → startsWithS s "." = false → slashStr s ≠ s →
      resolveSourceName R s = .error (.invalidSourceNameBackslashes s)) ∧
    (isAbsolutePath s = false → startsWithS s "." = false → slashStr s = s →
      normalizePath s ≠ s →
      resolveSourceName R s = .error (.invalidSourceNotNormalized s)) := by
  refine ⟨?_, ?_, ?_, ?_⟩
  · intro h1; simp [resolveSourceName, h1]
  · intro h1 h2; simp [resolveSourceName, h1, h2]
  · intro h1 h2 h3; simp [resolveSourceName, h1, h2, h3]
  · intro h1 h2 h3 h4; simp [resolveSourceName, h1, h2, h3, h4]

/-- Witness for C5: each of the four checks fires on a concrete name. -/
theorem resolveSourceName_check_order_witness :
    resolveSourceName emptyResolver "/a.sol" =
      .error (.invalidSourceNameAbsolutePath "/a.sol") ∧
    resolveSourceName emptyResolver "./a.sol" =
      .error (.invalidSourceNameRelativePath "./a.sol") ∧
    resolveSourceName emptyResolver "a\\b.sol" =
      .error (.invalidSourceNameBackslashes "a\\b.sol") ∧
    resolveSourceName emptyResolver "a/../b.sol" =
      .error (.invalidSourceNotNormalized "a/../b.sol") := by
  refine ⟨?_, ?_, ?_, ?_⟩
  · exact (resolveSourceName_check_order emptyResolver "/a.sol").1 rfl
  · exact (resolveSourceName_check_order emptyResolver "./a.sol").2.1 rfl rfl
  · exact (resolveSourceName_check_order emptyResolver "a\\b.sol").2.2.1 rfl rfl (by decide)
  · exact (resolveSourceName_check_order emptyResolver "a/../b.sol").2.2.2 rfl rfl rfl (by decide)

/-- C3 (amended): a raw import string in which a nonempty ASCII-letter run
is immediately followed by `://` (the scheme regex matches) fails with
`InvalidImportProtocol` carrying the captured scheme; this holds for every
resolver, so no filesystem lookup is attempted. -/
theorem resolveImport_scheme_rejected (R : Resolver) (frm : ResolvedFile)
    (imported scheme : String) (h : getUriScheme imported = some scheme) :
    resolveImport R frm imported =
      .error (.invalidImportProtocol frm.globalName imported scheme) := by
  simp [resolveImport, h]

/-- Witness for C3 (amended): an `http://` import is rejected. -/
theorem resolveImport_scheme_rejected_witness :
    resolveImport emptyResolver (localFile "a.sol") "http://example.com/x.sol" =
      .error (.invalidImportProtocol "a.sol" "http://example.com/x.sol" "http") :=
  resolveImport_scheme_rejected emptyResolver (localFile "a.sol")
    "http://example.com/x.sol" "http" rfl

/-- Counterexample for C3 as stated: the import string `://x` contains the
substring `://` but the scheme regex does not match it (no letter before
the separator), so resolveImport proceeds past the protocol check and fails
much later with `LibraryNotInstalled`, not with `InvalidImportProtocol`. -/
theorem resolveImport_scheme_substring_counterexample :
    containsSub "://x" "://" = true ∧
    getUriScheme "://x" = none ∧
    resolveImport emptyResolver (localFile "a.sol") "://x" =
      .error (.libraryNotInstalled ":") :=
  ⟨rfl, rfl, rfl⟩

/-- C2: for a local importer whose joined, canonicalized path holds the
reserved `node_modules/` pattern, the relative-import translator returns
the suffix after the first occurrence of that pattern, a direct library
source name. -/
theorem relativeImport_node_modules_strip (frm : ResolvedFile) (imported : String)
    (hlib : frm.library = none)
    (hnm : containsSub (normalizePath (pathJoin (posixDirname frm.globalName) imported))
      nodeModulesSeg = true) :
    relativeImportToSourceName frm imported =
      .ok (afterNodeModules (normalizePath (pathJoin (posixDirname frm.globalName) imported))) :=
  relativeImport_strip_aux frm imported hlib hnm

/-- Witness for C2: two different local importers tunnelling into the
dependency directory by different relative paths obtain the same library
source name for the same on-disk file. -/
theorem relativeImport_node_modules_strip_witness :
    relativeImportToSourceName (localFile "contracts/c.sol") "../node_modules/dep/d.sol" =
      .ok "dep/d.sol" ∧
    relativeImportToSourceName (localFile "a/b/c2.sol") "../../node_modules/dep/d.sol" =
      .ok "dep/d.sol" := by
  constructor
  · exact (relativeImport_node_modules_strip (localFile "contracts/c.sol")
      "../node_modules/dep/d.sol" rfl rfl).trans rfl
  · exact (relativeImport_node_modules_strip (localFile "a/b/c2.sol")
      "../../node_modules/dep/d.sol" rfl rfl).trans rfl

/-- C10: the strip through the reserved pattern is applied before the
upward-escape check, so a local importer whose canonicalized path both
starts with `../` and holds `node_modules/` obtains a library source name
and `InvalidImportOutsideOfProject` is not raised. -/
theorem relativeImport_strip_precedes_escape (frm : ResolvedFile) (imported : String)
    (hlib : frm.library = none)
    (_hup : startsWithS (normalizePath (pathJoin (posixDirname frm.globalName) imported))
      "../" = true)
    (hnm : containsSub (normalizePath (pathJoin (posixDirname frm.globalName) imported))
      nodeModulesSeg = true) :
    relativeImportToSourceName frm imported =
      .ok (afterNodeModules (normalizePath (pathJoin (posixDirname frm.globalName) imported))) ∧
    relativeImportToSourceName frm imported ≠
      .error (.invalidImportOutsideOfProject frm.globalName imported) := by
  have h1 := relativeImport_strip_aux frm imported hlib hnm
  refine ⟨h1, ?_⟩
  rw [h1]
  simp

/-- Witness for C10: an escaping path through the dependency directory is
translated, not rejected. -/
theorem relativeImport_strip_precedes_escape_witness :
    relativeImportToSourceName (localFile "a.sol") "../node_modules/lib2/z.sol" =
      .ok "lib2/z.sol" ∧
    relativeImportToSourceName (localFile "a.sol") "../node_modules/lib2/z.sol" ≠
      .error (.invalidImportOutsideOfProject "a.sol" "../node_modules/lib2/z.sol") := by
  have h := relativeImport_strip_precedes_escape (localFile "a.sol")
    "../node_modules/lib2/z.sol" rfl rfl rfl
  exact ⟨h.1.trans rfl, h.2⟩

/-- C1 (amended): when the canonicalized joined path starts with `../`, a
library importer always fails with `IllegalImport`; a local importer fails
with `InvalidImportOutsideOfProject` provided the canonicalized path does
not hold the reserved `node_modules/` pattern (otherwise the strip wins and
returns a library source name first). -/
theorem relativeImport_upward_escape (frm : ResolvedFile) (imported : String)
    (hup : startsWithS (normalizePath (pathJoin (posixDirname frm.globalName) imported))
      "../" = true) :
    (∀ li : LibraryInfo, frm.library = some li →
      relativeImportToSourceName frm imported =
        .error (.illegalImport frm.globalName imported)) ∧
    (frm.library = none →
      containsSub (normalizePath (pathJoin (posixDirname frm.globalName) imported))
        nodeModulesSeg = false →
      relativeImportToSourceName frm imported =
        .error (.invalidImportOutsideOfProject frm.globalName imported)) := by
  constructor
  · intro li hli
    simp [relativeImportToSourceName, hli, hup]
  · intro hlib hnm
    have h3 : strIndexOf (normalizePath (pathJoin (posixDirname frm.globalName) imported)).data
        nodeModulesSeg.data = -1 := not_ne_iff.mp (of_decide_eq_false hnm)
    simp [relativeImportToSourceName, hlib, hup, h3]

/-- Witness for C1 (amended): a library importer escaping its tree gets
`IllegalImport`; the spec example, importing `../../x.ext` from the local
`a/b.ext`, gets `InvalidImportOutsideOfProject`. -/
theorem relativeImport_upward_escape_witness :
    relativeImportToSourceName (libraryFile "lib/a.sol" ⟨"lib", "1.0.0"⟩) "../../x.sol" =
      .error (.illegalImport "lib/a.sol" "../../x.sol") ∧
    relativeImportToSourceName (localFile "a/b.ext") "../../x.ext" =
      .error (.invalidImportOutsideOfProject "a/b.ext" "../../x.ext") := by
  constructor
  · exact (relativeImport_upward_escape (libraryFile "lib/a.sol" ⟨"lib", "1.0.0"⟩)
      "../../x.sol" rfl).1 ⟨"lib", "1.0.0"⟩ rfl
  · exact (relativeImport_upward_escape (localFile "a/b.ext") "../../x.ext" rfl).2 rfl rfl

/-- Counterexample for C1 as stated: from the local importer `a.sol`, the
relative import `../node_modules/lib/x.sol` canonicalizes to a path that
starts with `../`, yet the translation succeeds with a library source name
instead of failing with `InvalidImportOutsideOfProject`. -/
theorem relativeImport_upward_escape_counterexample :
    startsWithS (normalizePath (pathJoin (posixDirname (localFile "a.sol").globalName)
      "../node_modules/lib/x.sol")) "../" = true ∧
    (localFile "a.sol").library = none ∧
    relativeImportToSourceName (localFile "a.sol") "../node_modules/lib/x.sol" =
      .ok "lib/x.sol" :=
  ⟨rfl, rfl, rfl⟩

/-- C4 (amended): the local classifier tests the substring `node_modules`,
not a path segment: a source name including that substring anywhere is
never local, and otherwise locality is exactly existence of the file at
`projectRoot/sourceName`. -/
theorem isLocal_substring_characterization (R : Resolver) (s : String) :
    isSourceNameFromLocalSourceFile R s =
      (!containsSub s NODE_MODULES && R.fs.pathExists (pathJoin R.projectRoot s)) := by
  cases hc : containsSub s NODE_MODULES <;>
    simp [isSourceNameFromLocalSourceFile, hc]

/-- Counterexample for C4 as stated: `dir/node_modulesx/f.sol` has no
`node_modules` path segment and the file exists at the project root, yet
the classifier reports it as not local, because the substring check
matches inside the segment `node_modulesx`. -/
theorem isLocal_segment_counterexample :
    hasNodeModulesSegment "dir/node_modulesx/f.sol" = false ∧
    fsNmx.pathExists (pathJoin "/prj" "dir/node_modulesx/f.sol") = true ∧
    isSourceNameFromLocalSourceFile nmxResolver "dir/node_modulesx/f.sol" = false :=
  ⟨rfl, rfl, rfl⟩

/-- C6: when the try block of resolveImport fails, a `FileNotFound` or
`LibraryFileNotFound` failure is rewrapped as
`ImportedFileNotFound{imported, from}`, a `WrongCasing` failure is
rewrapped as `InvalidImportWrongCasing{imported, from}`, and every other
failure propagates to the caller unchanged. -/
theorem resolveImport_error_rewrapping (R : Resolver) (frm : ResolvedFile)
    (imported : String) (e : ResolverError)
    (hs : getUriScheme imported = none)
    (hb : slashStr imported = imported)
    (ha : isAbsolutePath imported = false)
    (he : tryResolveImportedSource R frm imported = .error e) :
    (∀ f, e = .fileNotFound f →
      resolveImport R frm imported =
        .error (.importedFileNotFound imported frm.globalName)) ∧
    (∀ f, e = .libraryFileNotFound f →
      resolveImport R frm imported =
        .error (.importedFileNotFound imported frm.globalName)) ∧
    (∀ a b, e = .wrongCasing a b →
      resolveImport R frm imported =
        .error (.invalidImportWrongCasing imported frm.globalName)) ∧
    (isRewrappedError e = false → resolveImport R frm imported = .error e) := by
  refine ⟨?_, ?_, ?_, ?_⟩
  · rintro f rfl; simp [resolveImport, hs, hb, ha, he]
  · rintro f rfl; simp [resolveImport, hs, hb, ha, he]
  · rintro a b rfl; simp [resolveImport, hs, hb, ha, he]
  · intro hr
    cases e <;> simp_all [resolveImport, isRewrappedError, hs, hb, ha]

/-- Witness for C6: on a case-insensitive filesystem holding `B.sol`, the
raw string `./b.sol` imported from `a.sol` fails inside the try block with
`WrongCasing` and resolveImport reports `InvalidImportWrongCasing` naming
the edge. -/
theorem resolveImport_error_rewrapping_witness :
    tryResolveImportedSource casingResolver (localFile "a.sol") "./b.sol" =
      .error (.wrongCasing "b.sol" "B.sol") ∧
    resolveImport casingResolver (localFile "a.sol") "./b.sol" =
      .error (.invalidImportWrongCasing "./b.sol" "a.sol") := by
  refine ⟨rfl, ?_⟩
  exact (resolveImport_error_rewrapping casingResolver (localFile "a.sol") "./b.sol"
    (.wrongCasing "b.sol" "B.sol") rfl rfl rfl rfl).2.2.1 "b.sol" "B.sol" rfl

/-- C7: a file returned by resolveSourceName carries library provenance
exactly when the local classifier rejected its name (that is, when it was
resolved from a third-party package); a file returned by resolveImport is
always obtained from some resolveSourceName call and satisfies the same
relation; concretely, with the package `lib` installed at version `1.2.3`,
resolving `lib/x/y.ext` yields `library = some {name := lib, version :=
1.2.3}` and versioned name `lib/x/y.ext@v1.2.3`, while resolving the local
`a/b.ext` yields `library = none` and versioned name `a/b.ext`. -/
theorem resolved_file_library_provenance :
    (∀ (R : Resolver) (s : String) (f : ResolvedFile), resolveSourceName R s = .ok f →
      f.library.isSome = !isSourceNameFromLocalSourceFile R s) ∧
    (∀ (R : Resolver) (frm : ResolvedFile) (imported : String) (f : ResolvedFile),
      resolveImport R frm imported = .ok f →
      ∃ s, resolveSourceName R s = .ok f ∧
        f.library.isSome = !isSourceNameFromLocalSourceFile R s) ∧
    (resolveSourceName libResolver "lib/x/y.ext").map
        (fun f => (f.library, f.getVersionedName)) =
      .ok (some ⟨"lib", "1.2.3"⟩, "lib/x/y.ext@v1.2.3") ∧
    (resolveSourceName libResolver "a/b.ext").map
        (fun f => (f.library, f.getVersionedName)) = .ok (none, "a/b.ext") := by
  refine ⟨resolveSourceName_ok_library, ?_, rfl, rfl⟩
  intro R frm imported f h
  unfold resolveImport at h
  cases hsch : getUriScheme imported with
  | some scheme => simp [hsch] at h
  | none =>
    rw [hsch] at h
    by_cases hb : slashStr imported = imported
    case neg => simp [hb] at h
    by_cases ha : isAbsolutePath imported = true
    case pos => simp [hb, ha] at h
    rw [if_neg (not_not_intro hb), if_neg ha] at h
    cases ht : tryResolveImportedSource R frm imported with
    | error e =>
      rw [ht] at h
      cases e <;> simp at h
    | ok f2 =>
      rw [ht] at h
      rw [Except.ok.injEq] at h
      subst h
      unfold tryResolveImportedSource at ht
      by_cases hrel : isRelativeImport imported = true
      · rw [hrel] at ht
        simp only [Bool.not_true, Bool.false_eq_true, if_false] at ht
        cases htr : relativeImportToSourceName frm imported with
        | error e => simp [htr] at ht
        | ok sn =>
          rw [htr] at ht
          exact ⟨sn, ht, resolveSourceName_ok_library R sn f2 ht⟩
      · rw [Bool.not_eq_true] at hrel
        rw [hrel] at ht
        simp only [Bool.not_false, if_true] at ht
        exact ⟨normalizePath imported, ht,
          resolveSourceName_ok_library R (normalizePath imported) f2 ht⟩

/-- Witness for C7: the general provenance relation instantiated at the
concrete library resolution of `lib/x/y.ext`. -/
theorem resolved_file_library_provenance_witness :
    resolveSourceName libResolver "lib/x/y.ext" =
      .ok ⟨"lib/x/y.ext", "/prj/node_modules/lib/x/y.ext", ⟨"", [], []⟩, 0,
        some ⟨"lib", "1.2.3"⟩⟩ ∧
    (⟨"lib/x/y.ext", "/prj/node_modules/lib/x/y.ext", ⟨"", [], []⟩, 0,
        some ⟨"lib", "1.2.3"⟩⟩ : ResolvedFile).library.isSome =
      !isSourceNameFromLocalSourceFile libResolver "lib/x/y.ext" := by
  refine ⟨rfl, ?_⟩
  exact resolved_file_library_provenance.1 libResolver "lib/x/y.ext" _ rfl

/-- C9 (amended): a normalized project-relative path that is not absolute,
has no leading dot, no backslashes, does not include the substring
`node_modules`, and denotes an existing file with matching casing resolves
successfully to a `ResolvedFile` with no library provenance whose absolute
path is the project root joined with the path. -/
theorem resolveSourceName_local_success (R : Resolver) (p : String)
    (habs : isAbsolutePath p = false)
    (hdot : startsWithS p "." = false)
    (hslash : slashStr p = p)
    (hnorm : normalizePath p = p)
    (hnm : containsSub p NODE_MODULES = false)
    (hex : R.fs.pathExists (pathJoin R.projectRoot p) = true)
    (hcase : R.fs.trueCase R.projectRoot p = some p) :
    resolveSourceName R p = .ok (resolveFile R p (pathJoin R.projectRoot p) none none) ∧
    (resolveFile R p (pathJoin R.projectRoot p) none none).library = none ∧
    (resolveFile R p (pathJoin R.projectRoot p) none none).absolutePath =
      pathJoin R.projectRoot p := by
  refine ⟨?_, rfl, rfl⟩
  simp [resolveSourceName, habs, hdot, hslash, hnorm,
    isSourceNameFromLocalSourceFile, hnm, hex,
    resolveLocalSourceName, validateSourceNameExistenceAndCasing, hcase]

/-- Witness for C9 (amended): the local file `a/b.ext`. -/
theorem resolveSourceName_local_success_witness :
    resolveSourceName libResolver "a/b.ext" =
      .ok (resolveFile libResolver "a/b.ext" (pathJoin "/prj" "a/b.ext") none none) ∧
    (resolveFile libResolver "a/b.ext" (pathJoin "/prj" "a/b.ext") none none).library =
      none := by
  have h := resolveSourceName_local_success libResolver "a/b.ext"
    rfl rfl rfl rfl rfl rfl rfl
  exact ⟨h.1, h.2.1⟩

/-- Counterexample for C9 as stated: `src/my_node_modules_backup/f.sol` is
a normalized project-relative path with no leading dot, no `..` segment
and no backslash, the file exists at the project root with matching
casing, yet resolveSourceName fails with `LibraryNotInstalled` because the
name includes the substring `node_modules` and is therefore routed to
library resolution. -/
theorem resolveSourceName_local_counterexample :
    isAbsolutePath "src/my_node_modules_backup/f.sol" = false ∧
    startsWithS "src/my_node_modules_backup/f.sol" "." = false ∧
    slashStr "src/my_node_modules_backup/f.sol" = "src/my_node_modules_backup/f.sol" ∧
    normalizePath "src/my_node_modules_backup/f.sol" =
      "src/my_node_modules_backup/f.sol" ∧
    backupResolver.fs.pathExists (pathJoin "/prj" "src/my_node_modules_backup/f.sol") =
      true ∧
    backupResolver.fs.trueCase "/prj" "src/my_node_modules_backup/f.sol" =
      some "src/my_node_modules_backup/f.sol" ∧
    resolveSourceName backupResolver "src/my_node_modules_backup/f.sol" =
      .error (.libraryNotInstalled "src") :=
  ⟨rfl, rfl, rfl, rfl, rfl, rfl, rfl⟩

/-- takeWhile over an append whose left part satisfies the test and whose
first right element fails it keeps exactly the left part. -/
lemma takeWhile_append_sat (p : Char → Bool) :
    ∀ (l : List Char) (b : Char) (r : List Char),
      (∀ c ∈ l, p c = true) → p b = false → List.takeWhile p (l ++ b :: r) = l := by
  intro l
  induction l with
  | nil => intro b r _ hb; simp [List.takeWhile_cons, hb]
  | cons a t ih =>
    intro b r h hb
    have ha : p a = true := h a (List.mem_cons_self a t)
    simp only [List.cons_append, List.takeWhile_cons, ha, if_true]
    rw [ih b r (fun c hc => h c (List.mem_cons_of_mem a hc)) hb]

/-- `charIndexFrom` finds the first occurrence after `start`: when the
suffix from `start` decomposes as a clean part followed by the character,
the reported index is `start` plus the length of the clean part. -/
lemma charIndexFrom_found (cs l r : List Char) (c : Char) (start : Nat)
    (hdrop : cs.drop start = l ++ c :: r) (hl : ∀ a ∈ l, a ≠ c) :
    charIndexFrom cs c start = Int.ofNat (start + l.length) := by
  unfold charIndexFrom
  rw [hdrop]
  rw [takeWhile_append_sat (fun a => a != c) l c r (fun a ha => by simp [hl a ha]) (by simp)]
  rw [if_pos (by rw [List.length_append, List.length_cons]; omega)]

/-- A slice to the length of a clean decomposition keeps the left part. -/
lemma jsSliceTo_ofNat_take (l r : List Char) :
    jsSliceTo (l ++ r) (Int.ofNat l.length) = l := by
  unfold jsSliceTo
  rw [if_neg (by simp only [Int.ofNat_eq_coe]; omega)]
  have hmin : min (Int.ofNat l.length) (Int.ofNat (l ++ r).length) = Int.ofNat l.length := by
    apply min_eq_left
    simp only [Int.ofNat_eq_coe, List.length_append]
    omega
  rw [hmin]
  exact List.take_left l r

/-- C8 (amended): the extracted library name is the first path segment for
a non-scoped source name containing a slash, and the first two segments
for a scoped source name containing at least two slashes; a name without
the needed separator instead loses its final character (`slice(0, -1)`
from the failed `indexOf`). -/
theorem getLibraryName_segments :
    (∀ a r : String, (∀ c ∈ a.data, c ≠ '/') →
      startsWithS (a ++ "/" ++ r) "@" = false →
      getLibraryName (a ++ "/" ++ r) = a) ∧
    (∀ a b r : String, (∀ c ∈ a.data, c ≠ '/') → (∀ c ∈ b.data, c ≠ '/') →
      getLibraryName ("@" ++ a ++ "/" ++ b ++ "/" ++ r) = "@" ++ a ++ "/" ++ b) := by
  constructor
  · intro a r hl hat
    have hdata : (a ++ "/" ++ r).data = a.data ++ '/' :: r.data := by
      rw [String.data_append, String.data_append, List.append_assoc]
      rfl
    unfold getLibraryName
    simp only [hat, Bool.false_eq_true, if_false]
    rw [hdata]
    rw [charIndexFrom_found (a.data ++ '/' :: r.data) a.data r.data '/' 0
      (List.drop_zero _) hl]
    rw [Nat.zero_add, jsSliceTo_ofNat_take]
  · intro a b r ha hb
    have hdata : ("@" ++ a ++ "/" ++ b ++ "/" ++ r).data
        = ('@' :: a.data) ++ '/' :: (b.data ++ '/' :: r.data) := by
      simp only [String.data_append]
      simp [List.append_assoc]
    have hat : startsWithS ("@" ++ a ++ "/" ++ b ++ "/" ++ r) "@" = true := by
      unfold startsWithS
      rw [hdata]
      show List.isPrefixOf ['@'] (('@' :: a.data) ++ '/' :: (b.data ++ '/' :: r.data)) = true
      simp [List.isPrefixOf]
    unfold getLibraryName
    simp only [hat, if_true]
    rw [hdata]
    rw [charIndexFrom_found (('@' :: a.data) ++ '/' :: (b.data ++ '/' :: r.data))
      ('@' :: a.data) (b.data ++ '/' :: r.data) '/' 0 (List.drop_zero _)
      (by
        intro x hx
        rcases List.mem_cons.mp hx with h | h
        · subst h; decide
        · exact ha x h)]
    have hstart : ((Int.ofNat (0 + ('@' :: a.data).length)) + 1).toNat
        = a.data.length + 2 := by
      simp only [List.length_cons, Int.ofNat_eq_coe]
      omega
    rw [hstart]
    have hdrop2 : ((('@' :: a.data) ++ '/' :: (b.data ++ '/' :: r.data))).drop
        (a.data.length + 2) = b.data ++ '/' :: r.data := by
      have hsp : ('@' :: a.data) ++ '/' :: (b.data ++ '/' :: r.data)
          = (('@' :: a.data) ++ ['/']) ++ (b.data ++ '/' :: r.data) := by
        simp
      have hlen : (('@' :: a.data) ++ ['/']).length = a.data.length + 2 := by
        rw [List.length_append, List.length_cons]
        rfl
      rw [hsp, List.drop_left' hlen]
    rw [charIndexFrom_found (('@' :: a.data) ++ '/' :: (b.data ++ '/' :: r.data))
      b.data r.data '/' (a.data.length + 2) hdrop2 hb]
    have hsplit : ('@' :: a.data) ++ '/' :: (b.data ++ '/' :: r.data)
        = (('@' :: a.data) ++ '/' :: b.data) ++ ('/' :: r.data) := by
      simp
    have hlen2 : (('@' :: a.data) ++ '/' :: b.data).length
        = (a.data.length + 2) + b.data.length := by
      rw [List.length_append, List.length_cons, List.length_cons]
      omega
    rw [hsplit, ← hlen2, jsSliceTo_ofNat_take]
    have hpre : ("@" ++ a ++ "/" ++ b).data = ('@' :: a.data) ++ '/' :: b.data := by
      rw [String.data_append, String.data_append, String.data_append]
      have h1 : ("@" : String).data = ['@'] := rfl
      have h2 : ("/" : String).data = ['/'] := rfl
      rw [h1, h2]
      simp [List.append_assoc]
    rw [← hpre]

/-- Witness for C8 (amended): the plain name `lib/x.sol` extracts `lib`,
the scoped name `@scope/pkg/f.sol` extracts `@scope/pkg`. -/
theorem getLibraryName_segments_witness :
    getLibraryName ("lib" ++ "/" ++ "x.sol") = "lib" ∧
    getLibraryName ("@" ++ "scope" ++ "/" ++ "pkg" ++ "/" ++ "f.sol") =
      "@" ++ "scope" ++ "/" ++ "pkg" := by
  constructor
  · exact getLibraryName_segments.1 "lib" "x.sol" (by decide) (by decide)
  · exact getLibraryName_segments.2 "scope" "pkg" "f.sol" (by decide) (by decide)

/-- Counterexample for C8 as stated: the source name `lib` has first
segment `lib`, yet the extracted library name is `li` (the `slice(0, -1)`
of the failed slash search drops the final character), and the Library
Resolver then reports the mangled name; the scoped name `@scope/pkg`
likewise yields `@scope/pk` instead of its two segments. -/
theorem getLibraryName_no_separator_counterexample :
    segmentsOf "lib" = ["lib"] ∧
    getLibraryName "lib" = "li" ∧
    getLibraryName "@scope/pkg" = "@scope/pk" ∧
    resolveLibrarySourceName emptyResolver "lib" =
      .error (.libraryNotInstalled "li") :=
  ⟨rfl, rfl, rfl, rfl⟩

end Buidler
